import Mathlib

/-!
Verification of the forensic financial analytics dashboard core
(`src/app.py`).

The computational core is a pure function of five scalar financial
inputs (the sidebar sliders of `app.py`): four fixed threshold rules
produce a list of warning flags, the flag count yields a fraud score
`min(100, 20 + 20 * flagCount)`, the score is bucketed into a risk
label, and two rounded "proxy" ratios are derived.  A second,
independent component draws 200 digits from a fixed first-digit
distribution and tabulates the counts per digit (pandas
`value_counts`, which omits digits that never occur).

Numeric inputs are modelled as rationals (`ℚ`): the Python values are
slider-supplied finite numbers and every operation used (comparison,
`+`, `-`, `*`, `/` by a constant, `round` to 2 decimals) is exact on
`ℚ`.  Python `round` uses round-half-to-even, modelled by
`roundHalfEven` below.
-/

namespace FraudDashboard

/-- The five sidebar inputs of `app.py` (lines 25–29). -/
structure FinancialInputs where
  revenueGrowthPct : ℚ
  cashflowGrowthPct : ℚ
  accrualsPctOfAssets : ℚ
  debtToEquity : ℚ
  workingCapitalChangePct : ℚ
  deriving Repr, DecidableEq

/-- The three risk labels of `app.py` lines 53–57. -/
inductive RiskLabel where
  | LOW
  | MODERATE
  | HIGH
  deriving Repr, DecidableEq

/-- Round-half-to-even on a rational, the rounding mode of Python
`round`. -/
def roundHalfEven (q : ℚ) : ℤ :=
  let f := ⌊q⌋
  let r := q - f
  if r < 1/2 then f
  else if 1/2 < r then f + 1
  else if f % 2 = 0 then f else f + 1

/-- Python `round(x, 2)`: round to two decimal places. -/
def round2 (q : ℚ) : ℚ :=
  (roundHalfEven (q * 100) : ℚ) / 100

/-- The derived output record (the values `app.py` renders: flags,
flag count, fraud score, risk label, and the two proxy metrics of
lines 66–67). -/
structure RiskAssessment where
  flags : List String
  flagCount : ℕ
  fraudScore : ℕ
  riskLabel : RiskLabel
  altmanZProxy : ℚ
  beneishMProxy : ℚ
  deriving Repr, DecidableEq

/-- Warning text of rule 1 (`app.py` line 37). -/
def msgRevenue : String := "Revenue growing much faster than cash flows"

/-- Warning text of rule 2 (`app.py` line 40). -/
def msgAccruals : String := "High accruals → possible earnings manipulation"

/-- Warning text of rule 3 (`app.py` line 43). -/
def msgLeverage : String := "High leverage → financial stress"

/-- Warning text of rule 4 (`app.py` line 46). -/
def msgWorkingCapital : String := "Unusual working capital movement"

/-- The flag list of `app.py` lines 34–46: start from the empty list
and sequentially append the warning of each rule whose condition
holds. -/
def flags (i : FinancialInputs) : List String :=
  let fs : List String := []
  let fs := if i.revenueGrowthPct > i.cashflowGrowthPct * 2 then fs ++ [msgRevenue] else fs
  let fs := if i.accrualsPctOfAssets > 10 then fs ++ [msgAccruals] else fs
  let fs := if i.debtToEquity > 1.2 then fs ++ [msgLeverage] else fs
  let fs := if i.workingCapitalChangePct > 10 then fs ++ [msgWorkingCapital] else fs
  fs

/-- `flag_count = len(flags)` (`app.py` line 48). -/
def flag_count (i : FinancialInputs) : ℕ := (flags i).length

/-- The fraud score formula of `app.py` line 51, as a function of a
flag count. -/
def scoreOfFlagCount (n : ℕ) : ℕ := min 100 (20 + n * 20)

/-- `fraud_score = min(100, 20 + flag_count * 20)` (`app.py` line 51). -/
def fraud_score (i : FinancialInputs) : ℕ := scoreOfFlagCount (flag_count i)

/-- The label bucketing of `app.py` lines 53–57, as a function of a
score. -/
def labelOfScore (s : ℕ) : RiskLabel :=
  if s < 40 then .LOW
  else if s < 70 then .MODERATE
  else .HIGH

/-- `risk_label` (`app.py` lines 53–57). -/
def risk_label (i : FinancialInputs) : RiskLabel := labelOfScore (fraud_score i)

/-- The whole derived record: the core evaluation of `app.py`
lines 34–67 packaged as one pure function (the `evaluateRisk`
interface of the spec). -/
def evaluateRisk (i : FinancialInputs) : RiskAssessment :=
  { flags := flags i
    flagCount := flag_count i
    fraudScore := fraud_score i
    riskLabel := risk_label i
    altmanZProxy := round2 (3.0 - i.debtToEquity - i.accrualsPctOfAssets / 20)
    beneishMProxy := round2 (i.accrualsPctOfAssets / 8 + i.revenueGrowthPct / 60) }

/-- The spec's description of the flag list, for comparison with the
sequential construction of `flags`: the warning strings of the four
fixed rules whose conditions hold, appended in the fixed order. -/
def specFlags (i : FinancialInputs) : List String :=
  (if i.revenueGrowthPct > i.cashflowGrowthPct * 2 then [msgRevenue] else []) ++
  (if i.accrualsPctOfAssets > 10 then [msgAccruals] else []) ++
  (if i.debtToEquity > 1.2 then [msgLeverage] else []) ++
  (if i.workingCapitalChangePct > 10 then [msgWorkingCapital] else [])

/-- The nine possible first digits of the Benford draw
(`app.py` line 139). -/
def benfordDigits : List ℕ := [1, 2, 3, 4, 5, 6, 7, 8, 9]

/-- The fixed categorical distribution of `app.py` line 140. -/
def benfordProbs : List ℚ :=
  [30/100, 18/100, 12/100, 10/100, 8/100, 7/100, 6/100, 5/100, 4/100]

/-- `size=200` (`app.py` line 139). -/
def benfordSampleSize : ℕ := 200

/-- A possible outcome of
`np.random.choice([1,...,9], size=200, p=benfordProbs)`: a list of
200 digits, each from the support of the distribution (every one of
the nine probabilities is positive, so the support is all of 1..9). -/
def BenfordOutcome (ds : List ℕ) : Prop :=
  ds.length = benfordSampleSize ∧ ∀ d ∈ ds, d ∈ benfordDigits

/-- The tabulation of `app.py` lines 142–143: pandas `value_counts`
pairs each digit value that occurs in the draw with its number of
occurrences, and omits digits that never occur.  (`value_counts`
orders its rows by descending count; the claims treat `digitCounts`
as a mapping digit → count, so the embedding keeps first-occurrence
order, which has the same entries.) -/
def digitCounts (ds : List ℕ) : List (ℕ × ℕ) :=
  ds.dedup.map (fun d => (d, ds.count d))

/-- The pre-filled slider scenario of the spec's concrete scenario 1:
revenueGrowth=25, cashflowGrowth=8, accruals=12, debtEquity=0.9,
wcChange=15. -/
def scenario1 : FinancialInputs :=
  { revenueGrowthPct := 25
    cashflowGrowthPct := 8
    accrualsPctOfAssets := 12
    debtToEquity := 9/10
    workingCapitalChangePct := 15 }

/-! ### Helper lemmas -/

/-- The flag count is the sum of the indicators of the four rule
conditions. -/
theorem flag_count_eq_indicators (i : FinancialInputs) :
    flag_count i =
      (if i.revenueGrowthPct > i.cashflowGrowthPct * 2 then 1 else 0) +
      (if i.accrualsPctOfAssets > 10 then 1 else 0) +
      (if i.debtToEquity > 1.2 then 1 else 0) +
      (if i.workingCapitalChangePct > 10 then 1 else 0) := by
  simp only [flag_count, flags]
  split_ifs <;> simp

/-- The scoring step function is monotone in the flag count. -/
theorem scoreOfFlagCount_mono {m n : ℕ} (h : m ≤ n) :
    scoreOfFlagCount m ≤ scoreOfFlagCount n := by
  simp only [scoreOfFlagCount]
  omega

/-- Indicators compare when the conditions imply. -/
theorem indicator_le_indicator {p q : Prop} [Decidable p] [Decidable q]
    (h : p → q) : (if p then 1 else 0) ≤ (if q then (1 : ℕ) else 0) := by
  split_ifs with hp hq
  · exact le_refl _
  · exact absurd (h hp) hq
  · exact Nat.zero_le _
  · exact le_refl _

/-! ### Claims -/

/-- C1: for every `FinancialInputs`, the flags list produced by
`evaluateRisk` is exactly the warning strings of the four fixed rules
whose conditions hold, appended in the fixed order (rule 1 when
`revenueGrowthPct > cashflowGrowthPct * 2`, then rule 2 when
`accrualsPctOfAssets > 10`, then rule 3 when `debtToEquity > 1.2`,
then rule 4 when `workingCapitalChangePct > 10`), and `flagCount`
equals the length of `flags`. -/
theorem evaluateRisk_flags_spec (i : FinancialInputs) :
    (evaluateRisk i).flags = specFlags i ∧
    (evaluateRisk i).flagCount = (evaluateRisk i).flags.length := by
  refine ⟨?_, rfl⟩
  show flags i = specFlags i
  simp only [flags, specFlags]
  split_ifs <;> simp

/-- C2: for every `FinancialInputs`,
`fraudScore = min(100, 20 + 20 * flagCount)`; the step function takes
the values 0 flags → 20, 1 → 40, 2 → 60, 3 → 80, 4 → 100; and any
flag count ≥ 4 yields 100. -/
theorem evaluateRisk_fraudScore_spec (i : FinancialInputs) (n : ℕ) (hn : 4 ≤ n) :
    (evaluateRisk i).fraudScore = min 100 (20 + 20 * (evaluateRisk i).flagCount) ∧
    scoreOfFlagCount 0 = 20 ∧ scoreOfFlagCount 1 = 40 ∧
    scoreOfFlagCount 2 = 60 ∧ scoreOfFlagCount 3 = 80 ∧
    scoreOfFlagCount 4 = 100 ∧ scoreOfFlagCount n = 100 := by
  refine ⟨?_, rfl, rfl, rfl, rfl, rfl, ?_⟩
  · have hfc : (evaluateRisk i).flagCount = flag_count i := rfl
    have hfs : (evaluateRisk i).fraudScore = scoreOfFlagCount (flag_count i) := rfl
    rw [hfc, hfs]
    simp only [scoreOfFlagCount]
    omega
  · simp only [scoreOfFlagCount]
    omega

/-- Witness for C2 at the pre-filled scenario and flag count 7. -/
theorem evaluateRisk_fraudScore_spec_witness :
    (evaluateRisk scenario1).fraudScore =
      min 100 (20 + 20 * (evaluateRisk scenario1).flagCount) ∧
    scoreOfFlagCount 0 = 20 ∧ scoreOfFlagCount 1 = 40 ∧
    scoreOfFlagCount 2 = 60 ∧ scoreOfFlagCount 3 = 80 ∧
    scoreOfFlagCount 4 = 100 ∧ scoreOfFlagCount 7 = 100 :=
  evaluateRisk_fraudScore_spec scenario1 7 (by decide)

/-- C3: `riskLabel` is `LOW` iff `fraudScore < 40`, `MODERATE` iff
`40 ≤ fraudScore < 70`, and `HIGH` iff `fraudScore ≥ 70`, with
inclusive lower bounds at exactly 40 and 70 (first match wins in the
chained conditional). -/
theorem evaluateRisk_riskLabel_spec (i : FinancialInputs) :
    ((evaluateRisk i).riskLabel = RiskLabel.LOW ↔ (evaluateRisk i).fraudScore < 40) ∧
    ((evaluateRisk i).riskLabel = RiskLabel.MODERATE ↔
      40 ≤ (evaluateRisk i).fraudScore ∧ (evaluateRisk i).fraudScore < 70) ∧
    ((evaluateRisk i).riskLabel = RiskLabel.HIGH ↔ 70 ≤ (evaluateRisk i).fraudScore) := by
  have h : (evaluateRisk i).riskLabel = labelOfScore (fraud_score i) := rfl
  have h2 : (evaluateRisk i).fraudScore = fraud_score i := rfl
  rw [h, h2]
  unfold labelOfScore
  split_ifs with h40 h70 <;>
    refine ⟨?_, ?_, ?_⟩ <;> simp <;> omega

/-- C4: two-run noninterference — any two inputs whose evaluations
agree on `flagCount` get the same `fraudScore` and the same
`riskLabel`; no other input field influences them. -/
theorem evaluateRisk_noninterference (i j : FinancialInputs)
    (h : (evaluateRisk i).flagCount = (evaluateRisk j).flagCount) :
    (evaluateRisk i).fraudScore = (evaluateRisk j).fraudScore ∧
    (evaluateRisk i).riskLabel = (evaluateRisk j).riskLabel := by
  have h' : flag_count i = flag_count j := h
  constructor
  · show fraud_score i = fraud_score j
    unfold fraud_score
    rw [h']
  · show risk_label i = risk_label j
    unfold risk_label fraud_score
    rw [h']

/-- Witness for C4: two inputs differing in every field but with the
same flag count get the same score and label. -/
theorem evaluateRisk_noninterference_witness :
    (evaluateRisk ⟨0, 0, 0, 0, 0⟩).fraudScore =
      (evaluateRisk ⟨1, 2, 3, 1, 5⟩).fraudScore ∧
    (evaluateRisk ⟨0, 0, 0, 0, 0⟩).riskLabel =
      (evaluateRisk ⟨1, 2, 3, 1, 5⟩).riskLabel :=
  evaluateRisk_noninterference ⟨0, 0, 0, 0, 0⟩ ⟨1, 2, 3, 1, 5⟩
    (by norm_num [evaluateRisk, flag_count, flags])

/-- C5: for every `FinancialInputs`, the two proxy metrics equal the
spec's formulas, each rounded to 2 decimal places:
`altmanZProxy = round(3.0 - debtToEquity - accrualsPctOfAssets / 20, 2)`
and
`beneishMProxy = round(accrualsPctOfAssets / 8 + revenueGrowthPct / 60, 2)`. -/
theorem evaluateRisk_proxies_spec (i : FinancialInputs) :
    (evaluateRisk i).altmanZProxy =
      round2 (3.0 - i.debtToEquity - i.accrualsPctOfAssets / 20) ∧
    (evaluateRisk i).beneishMProxy =
      round2 (i.accrualsPctOfAssets / 8 + i.revenueGrowthPct / 60) :=
  ⟨rfl, rfl⟩

/-- C6: the concrete scenario (25, 8, 12, 0.9, 15) yields exactly
flags = [rule 1, rule 2, rule 4] (rule 3 does not fire since
0.9 ≤ 1.2), flagCount = 3, fraudScore = 80, riskLabel = HIGH,
altmanZProxy = 1.50, beneishMProxy = 1.92. -/
theorem evaluateRisk_scenario1 :
    evaluateRisk scenario1 =
      { flags := [msgRevenue, msgAccruals, msgWorkingCapital]
        flagCount := 3
        fraudScore := 80
        riskLabel := RiskLabel.HIGH
        altmanZProxy := 1.50
        beneishMProxy := 1.92 } := by
  have hf : flags scenario1 = [msgRevenue, msgAccruals, msgWorkingCapital] := by
    simp only [flags, scenario1]
    norm_num
  have hz : round2 (3.0 - scenario1.debtToEquity - scenario1.accrualsPctOfAssets / 20) = 1.50 := by
    simp only [scenario1, round2, roundHalfEven]
    norm_num
  have hm : round2 (scenario1.accrualsPctOfAssets / 8 + scenario1.revenueGrowthPct / 60) = 1.92 := by
    simp only [scenario1, round2, roundHalfEven]
    norm_num
  simp only [evaluateRisk, fraud_score, flag_count, risk_label, labelOfScore,
    scoreOfFlagCount, hf, hz, hm, RiskAssessment.mk.injEq]
  norm_num

/-- C7: every possible outcome of the Benford draw (200 samples, each
a digit 1..9 from the support of the fixed distribution) tabulates to
digit counts whose sum is the sample size 200, each count
non-negative. -/
theorem benford_digitCounts_sum (ds : List ℕ) (h : BenfordOutcome ds) :
    ((digitCounts ds).map Prod.snd).sum = benfordSampleSize ∧
    ∀ p ∈ digitCounts ds, 0 ≤ p.2 := by
  constructor
  · rw [← h.1]
    simp only [digitCounts, List.map_map, Function.comp]
    exact List.sum_map_count_dedup_eq_length ds
  · intro p _
    exact Nat.zero_le _

/-- Witness for C7 at the outcome drawing the digit 1 all 200
times. -/
theorem benford_digitCounts_sum_witness :
    ((digitCounts (List.replicate 200 1)).map Prod.snd).sum = benfordSampleSize ∧
    ∀ p ∈ digitCounts (List.replicate 200 1), 0 ≤ p.2 :=
  benford_digitCounts_sum (List.replicate 200 1)
    ⟨List.length_replicate 200 1,
     fun d hd => by rw [List.eq_of_mem_replicate hd]; simp [benfordDigits]⟩

/-- C8: the embedded evaluation is total on all of ℚ⁵ (it is a plain
Lean function, defined with no domain restriction and no error
branch), and every input — including values outside the slider
ranges — yields a complete, well-formed `RiskAssessment`: the flag
count matches the flag list, the score lies in [20, 100], and the
label is one of the three labels. -/
theorem evaluateRisk_total_wellFormed (i : FinancialInputs) :
    (evaluateRisk i).flagCount = (evaluateRisk i).flags.length ∧
    20 ≤ (evaluateRisk i).fraudScore ∧
    (evaluateRisk i).fraudScore ≤ 100 ∧
    ((evaluateRisk i).riskLabel = RiskLabel.LOW ∨
      (evaluateRisk i).riskLabel = RiskLabel.MODERATE ∨
      (evaluateRisk i).riskLabel = RiskLabel.HIGH) := by
  refine ⟨rfl, ?_, ?_, ?_⟩
  · show 20 ≤ scoreOfFlagCount (flag_count i)
    simp only [scoreOfFlagCount]
    omega
  · show scoreOfFlagCount (flag_count i) ≤ 100
    simp only [scoreOfFlagCount]
    omega
  · show labelOfScore (fraud_score i) = _ ∨ labelOfScore (fraud_score i) = _ ∨
      labelOfScore (fraud_score i) = _
    unfold labelOfScore
    split_ifs <;> simp

/-- C9: holding the other four fields fixed, `fraud_score` is
non-decreasing in `revenueGrowthPct`, `accrualsPctOfAssets`,
`debtToEquity` and `workingCapitalChangePct`, and non-increasing in
`cashflowGrowthPct`. -/
theorem fraud_score_monotone (i : FinancialInputs) (a b : ℚ) (hab : a ≤ b) :
    fraud_score { i with revenueGrowthPct := a } ≤
      fraud_score { i with revenueGrowthPct := b } ∧
    fraud_score { i with accrualsPctOfAssets := a } ≤
      fraud_score { i with accrualsPctOfAssets := b } ∧
    fraud_score { i with debtToEquity := a } ≤
      fraud_score { i with debtToEquity := b } ∧
    fraud_score { i with workingCapitalChangePct := a } ≤
      fraud_score { i with workingCapitalChangePct := b } ∧
    fraud_score { i with cashflowGrowthPct := b } ≤
      fraud_score { i with cashflowGrowthPct := a } := by
  refine ⟨?_, ?_, ?_, ?_, ?_⟩ <;>
    (unfold fraud_score
     apply scoreOfFlagCount_mono
     rw [flag_count_eq_indicators, flag_count_eq_indicators]
     dsimp only)
  · refine Nat.add_le_add (Nat.add_le_add (Nat.add_le_add ?_ (le_refl _)) (le_refl _)) (le_refl _)
    exact indicator_le_indicator fun h => lt_of_lt_of_le h hab
  · refine Nat.add_le_add (Nat.add_le_add (Nat.add_le_add (le_refl _) ?_) (le_refl _)) (le_refl _)
    exact indicator_le_indicator fun h => lt_of_lt_of_le h hab
  · refine Nat.add_le_add (Nat.add_le_add (Nat.add_le_add (le_refl _) (le_refl _)) ?_) (le_refl _)
    exact indicator_le_indicator fun h => lt_of_lt_of_le h hab
  · refine Nat.add_le_add (Nat.add_le_add (Nat.add_le_add (le_refl _) (le_refl _)) (le_refl _)) ?_
    exact indicator_le_indicator fun h => lt_of_lt_of_le h hab
  · refine Nat.add_le_add (Nat.add_le_add (Nat.add_le_add ?_ (le_refl _)) (le_refl _)) (le_refl _)
    refine indicator_le_indicator fun h => lt_of_le_of_lt ?_ h
    exact mul_le_mul_of_nonneg_right hab (by norm_num)

/-- Witness for C9 at the pre-filled scenario with the field moved
from 0 to 1. -/
theorem fraud_score_monotone_witness :
    fraud_score { scenario1 with revenueGrowthPct := 0 } ≤
      fraud_score { scenario1 with revenueGrowthPct := 1 } ∧
    fraud_score { scenario1 with accrualsPctOfAssets := 0 } ≤
      fraud_score { scenario1 with accrualsPctOfAssets := 1 } ∧
    fraud_score { scenario1 with debtToEquity := 0 } ≤
      fraud_score { scenario1 with debtToEquity := 1 } ∧
    fraud_score { scenario1 with workingCapitalChangePct := 0 } ≤
      fraud_score { scenario1 with workingCapitalChangePct := 1 } ∧
    fraud_score { scenario1 with cashflowGrowthPct := 1 } ≤
      fraud_score { scenario1 with cashflowGrowthPct := 0 } :=
  fraud_score_monotone scenario1 0 1 (by norm_num)

/-- C10: in every possible Benford outcome, a digit appears as a key
of the tabulated `digitCounts` iff it was drawn at least once (digits
with zero draws are omitted), and every listed count is at least 1. -/
theorem benford_digitCounts_keys (ds : List ℕ) (_h : BenfordOutcome ds) (d : ℕ) :
    ((∃ c, (d, c) ∈ digitCounts ds) ↔ d ∈ ds) ∧
    ∀ p ∈ digitCounts ds, 1 ≤ p.2 := by
  constructor
  · constructor
    · rintro ⟨c, hc⟩
      simp only [digitCounts, List.mem_map] at hc
      obtain ⟨x, hx, hxd⟩ := hc
      cases hxd
      exact List.mem_dedup.1 hx
    · intro hd
      exact ⟨ds.count d, List.mem_map.2 ⟨d, List.mem_dedup.2 hd, rfl⟩⟩
  · intro p hp
    simp only [digitCounts, List.mem_map] at hp
    obtain ⟨x, hx, rfl⟩ := hp
    exact List.count_pos_iff.2 (List.mem_dedup.1 hx)

/-- Witness for C10 at the outcome drawing the digit 1 all 200
times, for the digit 1. -/
theorem benford_digitCounts_keys_witness :
    ((∃ c, (1, c) ∈ digitCounts (List.replicate 200 1)) ↔
      1 ∈ List.replicate 200 1) ∧
    ∀ p ∈ digitCounts (List.replicate 200 1), 1 ≤ p.2 :=
  benford_digitCounts_keys (List.replicate 200 1)
    ⟨List.length_replicate 200 1,
     fun d hd => by rw [List.eq_of_mem_replicate hd]; simp [benfordDigits]⟩ 1

end FraudDashboard
